import Mathlib

/-!
Verification of the poly-user-skills example scripts.

The repository is a set of Python scripts that query the Polymarket Data
API and aggregate the JSON responses.  This file gives a shallow embedding
of the parts of the code that the specification talks about:

* `examples/utils.py` — address / condition-id validation and the P&L
  display formatters (pure string functions);
* the aggregation lines of `get_leaderboard.py`, `get_user_positions.py`,
  `trader_profitability.py` and `trade_analysis.py`;
* the HTTP request construction (URL, query parameters, timeout) and the
  error-handling shape of every `requests.get` call site, with the network
  outcome supplied as an explicit argument.

Python strings are modelled as `List Char` (the scripts only manipulate
ASCII data).  JSON numbers are modelled as rationals, and `dict.get(k, d)`
access to an optional JSON field as `Option.getD`.
-/

namespace PolyUserSkills

/-- The character list of a string literal; used to transcribe the Python
string literals of the scripts. -/
def chars (s : String) : List Char := s.data

/-- ASCII lowering of one character, as Python `str.lower` acts on the
ASCII range (the only range the scripts use). -/
def pyLower (c : Char) : Char :=
  if 'A' ≤ c ∧ c ≤ 'Z' then Char.ofNat (c.toNat + 32) else c

/-- ASCII raising of one character, as Python `str.upper` acts on the
ASCII range. -/
def pyUpper (c : Char) : Char :=
  if 'a' ≤ c ∧ c ≤ 'z' then Char.ofNat (c.toNat - 32) else c

/-- Python `s.lower()` on an ASCII string. -/
def strLower (s : List Char) : List Char := s.map pyLower

/-- Python `s.upper()` on an ASCII string. -/
def strUpper (s : List Char) : List Char := s.map pyUpper

/-- Python `s.replace("0x", "")`: delete every non-overlapping occurrence
of the two-character pattern `0x`, scanning left to right.  Note that this
is what the source really does — it is not limited to a leading prefix. -/
def removeAll0x : List Char → List Char
  | [] => []
  | [c] => [c]
  | c1 :: c2 :: rest =>
    if c1 = '0' ∧ c2 = 'x' then removeAll0x rest
    else c1 :: removeAll0x (c2 :: rest)

/-- The characters of the Python literal `0123456789abcdef` used by the
hex check in `utils.py`. -/
def hexChars : List Char := chars "0123456789abcdef"

/-- Python `c in "0123456789abcdef"`. -/
def isHexChar (c : Char) : Bool := decide (c ∈ hexChars)

/-- The `ValueError`s raised by `utils.py`, one constructor per `raise`
site (the embedded payload is the length interpolated into the message). -/
inductive PyValueError : Type
  | addressRequired : PyValueError
  | invalidAddressLength : Nat → PyValueError
  | invalidAddressHex : PyValueError
  | conditionIdRequired : PyValueError
  | invalidConditionIdLength : Nat → PyValueError
  | invalidConditionIdHex : PyValueError
deriving DecidableEq, Repr

/-- `utils.format_address`: reject the empty string, lowercase, delete the
occurrences of `0x`, require exactly 40 hex characters, and return the
result with a `0x` prefix.  `ValueError` is modelled as `Except.error`. -/
def format_address (address : List Char) : Except PyValueError (List Char) :=
  if address = [] then .error .addressRequired
  else
    let clean := removeAll0x (strLower address)
    if clean.length ≠ 40 then .error (.invalidAddressLength clean.length)
    else if ¬ (clean.all isHexChar) then .error .invalidAddressHex
    else .ok ('0' :: 'x' :: clean)

/-- `utils.format_condition_id`: same shape as `format_address` with
expected length 64. -/
def format_condition_id (condition_id : List Char) : Except PyValueError (List Char) :=
  if condition_id = [] then .error .conditionIdRequired
  else
    let clean := removeAll0x (strLower condition_id)
    if clean.length ≠ 64 then .error (.invalidConditionIdLength clean.length)
    else if ¬ (clean.all isHexChar) then .error .invalidConditionIdHex
    else .ok ('0' :: 'x' :: clean)

/-- Decimal digits of a natural number, most significant first. -/
def natDigitChars (n : Nat) : List Char := Nat.toDigits 10 n

/-- Insert a comma after every group of three characters of the reversed
digit list; helper for the thousands grouping of Python `{:,.2f}`. -/
def groupThreesAux : List Char → List Char
  | a :: b :: c :: d :: rest => a :: b :: c :: ',' :: groupThreesAux (d :: rest)
  | l => l

/-- Thousands grouping of a digit string, as Python `{:,}` renders it. -/
def groupThrees (ds : List Char) : List Char := (groupThreesAux ds.reverse).reverse

/-- Two-digit rendering of a number below 100 (the cents field). -/
def twoDigitChars (k : Nat) : List Char :=
  if k < 10 then '0' :: natDigitChars k else natDigitChars k

/-- Round `x * 100` to the nearest integer, ties to even — the rounding
Python `{:.2f}` applies to the displayed decimal value. -/
def roundHalfEvenCents (x : ℚ) : Int :=
  let q := x * 100
  let n := ⌊q⌋
  let r := q - n
  if r < 1 / 2 then n
  else if 1 / 2 < r then n + 1
  else if Even n then n else n + 1

/-- Nonnegative cents count rendered as `d,ddd.cc`. -/
def centsToChars (c : Nat) : List Char :=
  groupThrees (natDigitChars (c / 100)) ++ '.' :: twoDigitChars (c % 100)

/-- Python `f"{x:,.2f}"` for a decimal-exact value: two fixed decimals,
ties to even, thousands grouping, a `-` sign when negative. -/
def fmtCommaFixed2 (x : ℚ) : List Char :=
  let c := roundHalfEvenCents x
  if c < 0 then '-' :: centsToChars c.natAbs else centsToChars c.toNat

/-- Python `f"{x:.2f}"`: as `fmtCommaFixed2` but without grouping. -/
def fmtFixed2 (x : ℚ) : List Char :=
  let c := roundHalfEvenCents x
  if c < 0 then '-' :: natDigitChars (c.natAbs / 100) ++ '.' :: twoDigitChars (c.natAbs % 100)
  else natDigitChars (c.toNat / 100) ++ '.' :: twoDigitChars (c.toNat % 100)

/-- `utils.format_pnl`: three-way branch on the sign, `+$…` with the chart
up marker for gains, `-$…` on the absolute value with the chart down
marker for losses, plain `$…` for zero. -/
def format_pnl (pnl : ℚ) : List Char :=
  if pnl > 0 then '+' :: '$' :: fmtCommaFixed2 pnl ++ [' ', '📈']
  else if pnl < 0 then '-' :: '$' :: fmtCommaFixed2 |pnl| ++ [' ', '📉']
  else '$' :: fmtCommaFixed2 pnl

/-- `utils.format_percentage`: same three-way branch, rendering the value
itself (not its absolute value) in the negative case. -/
def format_percentage (percent : ℚ) : List Char :=
  if percent > 0 then '+' :: fmtFixed2 percent ++ ['%', ' ', '📈']
  else if percent < 0 then fmtFixed2 percent ++ ['%', ' ', '📉']
  else fmtFixed2 percent ++ ['%']

/-- The `trader1` entry of `utils.EXAMPLE_ADDRESSES`. -/
def EXAMPLE_ADDRESS : List Char := chars "0x56687bf447db6ffa42ffe2204a05edaa20f55839"

/-- The `market1` entry of `utils.EXAMPLE_CONDITION_IDS`. -/
def EXAMPLE_CONDITION_ID : List Char :=
  chars "0xdd22472e552920b8438158ea7238bfadfa4f736aa4cee91a6b86c39ead110917"

/-- Strip one optional leading `0x`, as the specification words the
validator contract (the source instead deletes every occurrence). -/
def stripLeading0x (s : List Char) : List Char :=
  if (chars "0x").isPrefixOf s then s.drop 2 else s

/-- The address acceptance condition exactly as the specification and the
claim word it: lowercase, strip one optional leading `0x`, and accept
exactly when 40 hex characters remain.  Kept separate from
`format_address` so the two readings can be compared. -/
def specAddressAccepts (s : List Char) : Bool :=
  let core := stripLeading0x (strLower s)
  decide (core.length = 40) && core.all isHexChar

/-- The condition-id acceptance condition as the specification words it,
with expected length 64. -/
def specConditionIdAccepts (s : List Char) : Bool :=
  let core := stripLeading0x (strLower s)
  decide (core.length = 64) && core.all isHexChar

/-- Python `str(b).lower()` for a bool, as the scripts pass boolean query
parameters. -/
def pyBoolStr (b : Bool) : List Char :=
  if b then chars "true" else chars "false"

/-- Python `",".join(parts)`. -/
def joinComma (parts : List (List Char)) : List Char :=
  (List.intersperse [','] parts).flatten

/-- A query-parameter value: the scripts pass strings and ints. -/
inductive ParamVal : Type
  | str : List Char → ParamVal
  | int : Int → ParamVal
deriving DecidableEq, Repr

/-- A GET request as built at one `requests.get` call site: URL, query
parameters in construction order, and the `timeout=` argument (`none`
when the call passes no timeout). -/
structure HttpRequest : Type where
  url : List Char
  params : List (List Char × ParamVal)
  timeout : Option Nat
deriving DecidableEq, Repr

/-- The value sent for a given query-parameter name. -/
def HttpRequest.param (r : HttpRequest) (key : List Char) : Option ParamVal :=
  (r.params.find? (fun kv => decide (kv.1 = key))).map Prod.snd

/-- Outcome of issuing one GET: a 2xx response carrying the parsed JSON
body, a non-2xx response (which `raise_for_status` turns into an
exception and `response.ok` reports as false), or a connection error /
timeout raised by `requests` itself. -/
inductive FetchOutcome (α : Type) : Type
  | success : α → FetchOutcome α
  | httpError : Nat → FetchOutcome α
  | netError : FetchOutcome α

/-- A `requests.exceptions.RequestException` escaping a call site that
has no `try` around it. -/
inductive PyRequestError : Type
  | requestException : PyRequestError
deriving DecidableEq, Repr

/-- The shared shape of each fetch the scripts wrap in `try … except`: a
2xx response yields the processed body, and any `RequestException` — a
connection error, a timeout, or the error `raise_for_status` raises on a
non-2xx status — is caught, a message is printed, and the fetcher
returns its default. -/
def fetchWithDefault {α β : Type} (onSuccess : α → β) (fallback : β) :
    FetchOutcome α → β
  | .success b => onSuccess b
  | .httpError _ => fallback
  | .netError => fallback

/-- A position record from `/positions` or `/closed-positions`,
restricted to the numeric fields the embedded aggregations read; a JSON
field that is absent is `none` and `pos.get(f, 0)` reads `Option.getD`. -/
structure Position : Type where
  cashPnl : Option ℚ
  realizedPnl : Option ℚ
  currentValue : Option ℚ
deriving DecidableEq, Repr

/-- A `/v1/leaderboard` entry, restricted to the fields the embedded
aggregation reads. -/
structure LeaderboardEntry : Type where
  rank : Option (List Char)
  userName : Option (List Char)
  pnl : Option ℚ
  vol : Option ℚ
deriving DecidableEq, Repr

/-- A `/trades` record (opaque to the embedded properties). -/
structure Trade : Type where
  side : Option (List Char)
  price : Option ℚ
  size : Option ℚ
deriving DecidableEq, Repr

/-- A `/value` record. -/
structure ValueRecord : Type where
  value : Option ℚ
deriving DecidableEq, Repr

/-- The `/traded` response object. -/
structure TradedRecord : Type where
  traded : Option ℚ
deriving DecidableEq, Repr

/-- One token block of the `/holders` response (opaque to the embedded
properties). -/
structure HolderToken : Type where
  token : Option (List Char)
deriving DecidableEq, Repr

namespace TraderProfitability

/-- The GET built by `trader_profitability.get_active_positions`:
`/positions` with `redeemable=false`, `timeout=15`. -/
def get_active_positions_request (address : List Char) (limit : Int) : HttpRequest :=
  ⟨chars "https://data-api.polymarket.com/positions",
   [(chars "user", .str address), (chars "limit", .int limit),
    (chars "redeemable", .str (chars "false"))],
   some 15⟩

/-- `get_active_positions` given the network outcome: the parsed body on
success, `[]` when a `RequestException` is caught. -/
def get_active_positions_run : FetchOutcome (List Position) → List Position :=
  fetchWithDefault id []

/-- The GET built by `trader_profitability.get_closed_positions`:
`/closed-positions` sorted by realized P&L, `timeout=15`. -/
def get_closed_positions_request (address : List Char) (limit : Int) : HttpRequest :=
  ⟨chars "https://data-api.polymarket.com/closed-positions",
   [(chars "user", .str address), (chars "limit", .int limit),
    (chars "sortBy", .str (chars "REALIZEDPNL")),
    (chars "sortDirection", .str (chars "DESC"))],
   some 15⟩

/-- `get_closed_positions` given the network outcome. -/
def get_closed_positions_run : FetchOutcome (List Position) → List Position :=
  fetchWithDefault id []

/-- The GET built by `trader_profitability.get_leaderboard_pnl`: with a
truthy `username` the `userName` parameter is added; otherwise with a
truthy `address` the formatted address is added (`format_address` may
raise, which propagates out); with neither, no request is issued and the
function returns `None`. -/
def get_leaderboard_pnl_request (username address : Option (List Char))
    (time_period : List Char) : Except PyValueError (Option HttpRequest) :=
  let base := [(chars "category", ParamVal.str (chars "OVERALL")),
               (chars "timePeriod", ParamVal.str time_period),
               (chars "orderBy", ParamVal.str (chars "PNL")),
               (chars "limit", ParamVal.int 1)]
  let url := chars "https://data-api.polymarket.com/v1/leaderboard"
  match username with
  | some (c :: cs) =>
      .ok (some ⟨url, base ++ [(chars "userName", .str (c :: cs))], some 15⟩)
  | _ =>
      match address with
      | some (a :: as) =>
          (format_address (a :: as)).map
            (fun f => some ⟨url, base ++ [(chars "user", .str f)], some 15⟩)
      | _ => .ok none

/-- `get_leaderboard_pnl` given the network outcome: `data[0]` when the
body is a nonempty list, otherwise `None`; `None` when a
`RequestException` is caught. -/
def get_leaderboard_pnl_run : FetchOutcome (List LeaderboardEntry) → Option LeaderboardEntry :=
  fetchWithDefault List.head? none

/-- The stats dict computed by `trader_profitability.calculate_profitability`
from the fetched active and closed position lists. -/
structure ProfitabilityStats : Type where
  total_pnl : ℚ
  unrealized_pnl : ℚ
  realized_pnl : ℚ
  active_positions : Nat
  closed_positions : Nat
  total_positions : Nat
  winning_active : Nat
  losing_active : Nat
  winning_closed : Nat
  losing_closed : Nat
  total_winning : Nat
  total_losing : Nat
  win_rate : ℚ
  is_profitable : Bool
deriving Repr

/-- `trader_profitability.calculate_profitability`, with the two fetched
lists passed in (in the source they are obtained by the two fetchers just
above). -/
def calculate_profitability (active_positions closed_positions : List Position) :
    ProfitabilityStats :=
  let unrealized_pnl := (active_positions.map (fun p => p.cashPnl.getD 0)).sum
  let unrealized_from_part_sales := (active_positions.map (fun p => p.realizedPnl.getD 0)).sum
  let realized_pnl := (closed_positions.map (fun p => p.realizedPnl.getD 0)).sum
  let total_realized := realized_pnl + unrealized_from_part_sales
  let total_pnl := unrealized_pnl + total_realized
  let winning_active := active_positions.filter (fun p => decide (p.cashPnl.getD 0 > 0))
  let losing_active := active_positions.filter (fun p => decide (p.cashPnl.getD 0 < 0))
  let winning_closed := closed_positions.filter (fun p => decide (p.realizedPnl.getD 0 > 0))
  let losing_closed := closed_positions.filter (fun p => decide (p.realizedPnl.getD 0 < 0))
  let total_positions := active_positions.length + closed_positions.length
  let total_winning := winning_active.length + winning_closed.length
  let total_losing := losing_active.length + losing_closed.length
  let win_rate := if total_positions > 0 then
    (total_winning : ℚ) / (total_positions : ℚ) * 100 else 0
  { total_pnl := total_pnl
    unrealized_pnl := unrealized_pnl
    realized_pnl := total_realized
    active_positions := active_positions.length
    closed_positions := closed_positions.length
    total_positions := total_positions
    winning_active := winning_active.length
    losing_active := losing_active.length
    winning_closed := winning_closed.length
    losing_closed := losing_closed.length
    total_winning := total_winning
    total_losing := total_losing
    win_rate := win_rate
    is_profitable := decide (total_pnl > 0) }

/-- `trader_profitability.main` reduced to the exit code of the process,
with the parsed `--address` value and the two fetch outcomes as inputs:
`sys.exit(1)` when `format_address` raises, otherwise
`sys.exit(0 if stats["is_profitable"] else 1)`. -/
def main_exit_code (addressArg : List Char)
    (activeOutcome closedOutcome : FetchOutcome (List Position)) : Nat :=
  match format_address addressArg with
  | .error _ => 1
  | .ok _formatted_address =>
      let stats := calculate_profitability
        (get_active_positions_run activeOutcome)
        (get_closed_positions_run closedOutcome)
      if stats.is_profitable then 0 else 1

end TraderProfitability

namespace GetLeaderboard

/-- The GET built by `get_leaderboard.get_leaderboard`: the category,
period and order are upper-cased and the `limit` parameter sent is
`min(limit, 50)`; `timeout=15`. -/
def get_leaderboard_request (category time_period order_by : List Char)
    (limit : Int) : HttpRequest :=
  ⟨chars "https://data-api.polymarket.com/v1/leaderboard",
   [(chars "category", .str (strUpper category)),
    (chars "timePeriod", .str (strUpper time_period)),
    (chars "orderBy", .str (strUpper order_by)),
    (chars "limit", .int (min limit 50))],
   some 15⟩

/-- `get_leaderboard` given the network outcome: the parsed body on
success, `None` when a `RequestException` is caught. -/
def get_leaderboard_run : FetchOutcome (List LeaderboardEntry) → Option (List LeaderboardEntry) :=
  fetchWithDefault some none

/-- `total_pnl = sum(t.get('pnl', 0) for t in leaderboard)` from
`get_leaderboard.main`. -/
def total_pnl (leaderboard : List LeaderboardEntry) : ℚ :=
  (leaderboard.map (fun t => t.pnl.getD 0)).sum

/-- `total_volume = sum(t.get('vol', 0) for t in leaderboard)` from
`get_leaderboard.main`. -/
def total_volume (leaderboard : List LeaderboardEntry) : ℚ :=
  (leaderboard.map (fun t => t.vol.getD 0)).sum

end GetLeaderboard

namespace GetMarketHolders

/-- The GET built by `get_market_holders.get_market_holders`: the market
parameter is the formatted condition id (`format_condition_id` may raise,
which propagates), the `limit` parameter sent is `min(limit, 20)`;
`timeout=15`. -/
def get_market_holders_request (condition_id : List Char) (limit : Int) :
    Except PyValueError HttpRequest :=
  (format_condition_id condition_id).map (fun m =>
    ⟨chars "https://data-api.polymarket.com/holders",
     [(chars "market", .str m), (chars "limit", .int (min limit 20))],
     some 15⟩)

/-- `get_market_holders` given the network outcome. -/
def get_market_holders_run : FetchOutcome (List HolderToken) → Option (List HolderToken) :=
  fetchWithDefault some none

end GetMarketHolders

namespace GetUserPositions

/-- The GET built by `get_user_positions.get_user_positions`: the
`redeemable` parameter is added only when the argument is not `None`,
rendered with `str(b).lower()`; `timeout=15`. -/
def get_user_positions_request (address : List Char) (limit : Int)
    (sort_by sort_direction : List Char) (redeemable : Option Bool) :
    Except PyValueError HttpRequest :=
  (format_address address).map (fun u =>
    ⟨chars "https://data-api.polymarket.com/positions",
     [(chars "user", .str u), (chars "limit", .int limit),
      (chars "sortBy", .str sort_by),
      (chars "sortDirection", .str sort_direction)] ++
     (match redeemable with
      | none => []
      | some b => [(chars "redeemable", .str (pyBoolStr b))]),
     some 15⟩)

/-- `get_user_positions` given the network outcome. -/
def get_user_positions_run : FetchOutcome (List Position) → Option (List Position) :=
  fetchWithDefault some none

/-- `total_value = sum(p.get('currentValue', 0) for p in positions)` from
`get_user_positions.main`. -/
def total_value (positions : List Position) : ℚ :=
  (positions.map (fun p => p.currentValue.getD 0)).sum

/-- `total_pnl = sum(p.get('cashPnl', 0) for p in positions)` from
`get_user_positions.main`. -/
def total_pnl (positions : List Position) : ℚ :=
  (positions.map (fun p => p.cashPnl.getD 0)).sum

end GetUserPositions

namespace GetUserTrades

/-- The GET built by `get_user_trades.get_user_trades`: optional truthy
`side` (upper-cased) and `market` parameters; `timeout=15`. -/
def get_user_trades_request (address : List Char) (limit : Int)
    (side market : Option (List Char)) : Except PyValueError HttpRequest :=
  (format_address address).map (fun u =>
    ⟨chars "https://data-api.polymarket.com/trades",
     [(chars "user", .str u), (chars "limit", .int limit)] ++
     (match side with
      | some (c :: cs) => [(chars "side", .str (strUpper (c :: cs)))]
      | _ => []) ++
     (match market with
      | some (c :: cs) => [(chars "market", .str (c :: cs))]
      | _ => []),
     some 15⟩)

/-- `get_user_trades` given the network outcome. -/
def get_user_trades_run : FetchOutcome (List Trade) → Option (List Trade) :=
  fetchWithDefault some none

end GetUserTrades

namespace GetUserActivity

/-- The GET built by `get_user_activity.get_user_activity`: optional
truthy `type` (comma-joined list) and `side` parameters; `timeout=15`. -/
def get_user_activity_request (address : List Char) (limit offset : Int)
    (activity_types : Option (List (List Char))) (side : Option (List Char))
    (sort_by sort_direction : List Char) : Except PyValueError HttpRequest :=
  (format_address address).map (fun u =>
    ⟨chars "https://data-api.polymarket.com/activity",
     [(chars "user", .str u), (chars "limit", .int limit),
      (chars "offset", .int offset), (chars "sortBy", .str sort_by),
      (chars "sortDirection", .str sort_direction)] ++
     (match activity_types with
      | some (t :: ts) => [(chars "type", .str (joinComma (t :: ts)))]
      | _ => []) ++
     (match side with
      | some (c :: cs) => [(chars "side", .str (c :: cs))]
      | _ => []),
     some 15⟩)

/-- `get_user_activity` given the network outcome. -/
def get_user_activity_run : FetchOutcome (List Trade) → Option (List Trade) :=
  fetchWithDefault some none

end GetUserActivity

namespace GetPortfolioValue

/-- The GET built by `get_portfolio_value.get_portfolio_value`:
`timeout=10`. -/
def get_portfolio_value_request (address : List Char) :
    Except PyValueError HttpRequest :=
  (format_address address).map (fun u =>
    ⟨chars "https://data-api.polymarket.com/value",
     [(chars "user", .str u)], some 10⟩)

/-- `get_portfolio_value` given the network outcome: `data[0].get('value', 0)`
when the body is a nonempty list, else `0`; `None` when a
`RequestException` is caught. -/
def get_portfolio_value_run : FetchOutcome (List ValueRecord) → Option ℚ :=
  fetchWithDefault
    (fun data => some (match data with | v :: _ => v.value.getD 0 | [] => 0)) none

/-- The GET built by `get_portfolio_value.get_user_positions_count`:
`timeout=10`. -/
def get_user_positions_count_request (address : List Char) :
    Except PyValueError HttpRequest :=
  (format_address address).map (fun u =>
    ⟨chars "https://data-api.polymarket.com/positions",
     [(chars "user", .str u), (chars "limit", .int 1)], some 10⟩)

/-- `get_user_positions_count` given the network outcome: the length of
the body, `0` when any exception is caught (bare `except`). -/
def get_user_positions_count_run : FetchOutcome (List Position) → Nat :=
  fetchWithDefault List.length 0

/-- The GET built by `get_portfolio_value.get_markets_traded_count`:
`timeout=10`. -/
def get_markets_traded_count_request (address : List Char) :
    Except PyValueError HttpRequest :=
  (format_address address).map (fun u =>
    ⟨chars "https://data-api.polymarket.com/traded",
     [(chars "user", .str u)], some 10⟩)

/-- `get_markets_traded_count` given the network outcome:
`data.get('traded', 0)`, `0` when any exception is caught. -/
def get_markets_traded_count_run : FetchOutcome TradedRecord → ℚ :=
  fetchWithDefault (fun d => d.traded.getD 0) 0

end GetPortfolioValue

namespace AnalyzeTrader

/-- The GET built by `analyze_trader.get_portfolio_value`: `timeout=10`. -/
def get_portfolio_value_request (address : List Char) : HttpRequest :=
  ⟨chars "https://data-api.polymarket.com/value",
   [(chars "user", .str address)], some 10⟩

/-- `analyze_trader.get_portfolio_value` given the network outcome:
`data[0].get('value', 0)` for a nonempty list body else `0`; `0` when any
exception is caught (bare `except`). -/
def get_portfolio_value_run : FetchOutcome (List ValueRecord) → ℚ :=
  fetchWithDefault (fun data => match data with | v :: _ => v.value.getD 0 | [] => 0) 0

/-- The GET built by `analyze_trader.get_positions`: `timeout=15`. -/
def get_positions_request (address : List Char) (limit : Int) : HttpRequest :=
  ⟨chars "https://data-api.polymarket.com/positions",
   [(chars "user", .str address), (chars "limit", .int limit),
    (chars "sortBy", .str (chars "CASHPNL")),
    (chars "sortDirection", .str (chars "DESC"))],
   some 15⟩

/-- `analyze_trader.get_positions` given the network outcome. -/
def get_positions_run : FetchOutcome (List Position) → List Position :=
  fetchWithDefault id []

/-- The GET built by `analyze_trader.get_recent_trades`: `timeout=15`. -/
def get_recent_trades_request (address : List Char) (limit : Int) : HttpRequest :=
  ⟨chars "https://data-api.polymarket.com/trades",
   [(chars "user", .str address), (chars "limit", .int limit)], some 15⟩

/-- `analyze_trader.get_recent_trades` given the network outcome. -/
def get_recent_trades_run : FetchOutcome (List Trade) → List Trade :=
  fetchWithDefault id []

/-- The GET built by `analyze_trader.get_markets_traded`: `timeout=10`. -/
def get_markets_traded_request (address : List Char) : HttpRequest :=
  ⟨chars "https://data-api.polymarket.com/traded",
   [(chars "user", .str address)], some 10⟩

/-- `analyze_trader.get_markets_traded` given the network outcome. -/
def get_markets_traded_run : FetchOutcome TradedRecord → ℚ :=
  fetchWithDefault (fun d => d.traded.getD 0) 0

/-- The GET built by `analyze_trader.get_closed_positions`: `timeout=15`. -/
def get_closed_positions_request (address : List Char) (limit : Int) : HttpRequest :=
  ⟨chars "https://data-api.polymarket.com/closed-positions",
   [(chars "user", .str address), (chars "limit", .int limit)], some 15⟩

/-- `analyze_trader.get_closed_positions` given the network outcome. -/
def get_closed_positions_run : FetchOutcome (List Position) → List Position :=
  fetchWithDefault id []

end AnalyzeTrader

namespace TradeAnalysis

/-- The GET built by `trade_analysis.analyze_trades`: `timeout=20`. -/
def analyze_trades_request (address : List Char) (limit : Int) :
    Except PyValueError HttpRequest :=
  (format_address address).map (fun u =>
    ⟨chars "https://data-api.polymarket.com/trades",
     [(chars "user", .str u), (chars "limit", .int limit),
      (chars "takerOnly", .str (chars "true"))],
     some 20⟩)

/-- The fetch stage of `analyze_trades`: the function returns `None` when
a `RequestException` is caught, and otherwise continues its analysis with
the parsed trade list. -/
def analyze_trades_fetch : FetchOutcome (List Trade) → Option (List Trade) :=
  fetchWithDefault some none

/-- The GET built by `trade_analysis.analyze_closed_positions`:
`timeout=15`. -/
def analyze_closed_positions_request (address : List Char) (limit : Int) :
    Except PyValueError HttpRequest :=
  (format_address address).map (fun u =>
    ⟨chars "https://data-api.polymarket.com/closed-positions",
     [(chars "user", .str u), (chars "limit", .int limit),
      (chars "sortBy", .str (chars "TIMESTAMP")),
      (chars "sortDirection", .str (chars "DESC"))],
     some 15⟩)

/-- The fetch stage of `analyze_closed_positions`: `None` when a
`RequestException` is caught. -/
def analyze_closed_positions_fetch : FetchOutcome (List Position) → Option (List Position) :=
  fetchWithDefault some none

/-- The analysis dict of `trade_analysis.analyze_closed_positions`
computed from the fetched positions. -/
structure ClosedAnalysis : Type where
  total_closed : Nat
  win_count : Nat
  loss_count : Nat
  total_won : ℚ
  total_lost : ℚ
  net_pnl : ℚ
deriving Repr

/-- The aggregation part of `trade_analysis.analyze_closed_positions`:
the `for` loop appends each position with positive `realizedPnl` to
`won_bets` and each one with negative `realizedPnl` to `lost_bets`, in
list order, which is exactly a filter of the list. -/
def analyze_closed_positions (positions : List Position) : ClosedAnalysis :=
  let won_bets := positions.filter (fun p => decide (p.realizedPnl.getD 0 > 0))
  let lost_bets := positions.filter (fun p => decide (p.realizedPnl.getD 0 < 0))
  let total_won := (won_bets.map (fun p => p.realizedPnl.getD 0)).sum
  let total_lost := (lost_bets.map (fun p => p.realizedPnl.getD 0)).sum
  { total_closed := positions.length
    win_count := won_bets.length
    loss_count := lost_bets.length
    total_won := total_won
    total_lost := total_lost
    net_pnl := total_won + total_lost }

/-- The GET built by `trade_analysis.analyze_open_positions`:
`timeout=15`. -/
def analyze_open_positions_request (address : List Char) (limit : Int) :
    Except PyValueError HttpRequest :=
  (format_address address).map (fun u =>
    ⟨chars "https://data-api.polymarket.com/positions",
     [(chars "user", .str u), (chars "limit", .int limit),
      (chars "redeemable", .str (chars "false"))],
     some 15⟩)

/-- The fetch stage of `analyze_open_positions`: `None` when a
`RequestException` is caught. -/
def analyze_open_positions_fetch : FetchOutcome (List Position) → Option (List Position) :=
  fetchWithDefault some none

end TradeAnalysis

namespace RedeemableParameterDemo

/-- The first GET of `redeemable_parameter_demo.get_positions_comparison`
(`redeemable=false`): `requests.get` is called with NO `timeout` argument
and outside any `try` block. -/
def query1_request (formatted_addr : List Char) : HttpRequest :=
  ⟨chars "https://data-api.polymarket.com/positions",
   [(chars "user", .str formatted_addr), (chars "sizeThreshold", .int 1),
    (chars "limit", .int 100), (chars "sortBy", .str (chars "TOKENS")),
    (chars "sortDirection", .str (chars "DESC")),
    (chars "redeemable", .str (chars "false"))],
   none⟩

/-- The second GET of `get_positions_comparison` (`redeemable=true`):
again no `timeout`, no `try`. -/
def query2_request (formatted_addr : List Char) : HttpRequest :=
  ⟨chars "https://data-api.polymarket.com/positions",
   [(chars "user", .str formatted_addr), (chars "sizeThreshold", .int 1),
    (chars "limit", .int 100), (chars "sortBy", .str (chars "TOKENS")),
    (chars "sortDirection", .str (chars "DESC")),
    (chars "redeemable", .str (chars "true"))],
   none⟩

/-- The third GET of `get_positions_comparison` (no `redeemable`
parameter): again no `timeout`, no `try`. -/
def query3_request (formatted_addr : List Char) : HttpRequest :=
  ⟨chars "https://data-api.polymarket.com/positions",
   [(chars "user", .str formatted_addr), (chars "sizeThreshold", .int 1),
    (chars "limit", .int 100), (chars "sortBy", .str (chars "TOKENS")),
    (chars "sortDirection", .str (chars "DESC"))],
   none⟩

/-- One query block of `get_positions_comparison`: with no `try` around
`requests.get`, a connection error or timeout propagates out of the
function as an uncaught `RequestException`; a non-2xx response
(`response.ok` false) prints the status code and the block continues
having obtained no positions. -/
def query_run (o : FetchOutcome (List Position)) : Except PyRequestError (List Position) :=
  match o with
  | .success body => .ok body
  | .httpError _ => .ok []
  | .netError => .error .requestException

end RedeemableParameterDemo

end PolyUserSkills

namespace PolyUserSkills

theorem isHexChar_ne_x {c : Char} (h : isHexChar c = true) : c ≠ 'x' :=
  fun hx => absurd (hx ▸ h) (by decide)

theorem pyLower_of_isHexChar {c : Char} (h : isHexChar c = true) : pyLower c = c := by
  have hmem : c ∈ hexChars := of_decide_eq_true h
  fin_cases hmem <;> rfl

theorem strLower_of_all_hex {l : List Char} (h : l.all isHexChar = true) :
    strLower l = l := by
  induction l with
  | nil => rfl
  | cons c cs ih =>
    rw [List.all_cons, Bool.and_eq_true] at h
    show pyLower c :: strLower cs = c :: cs
    rw [pyLower_of_isHexChar h.1, ih h.2]

theorem not_mem_x_of_all_hex {l : List Char} (h : l.all isHexChar = true) :
    'x' ∉ l := by
  intro hm
  exact absurd (List.all_eq_true.mp h _ hm) (by decide)

theorem removeAll0x_of_not_mem_x : ∀ (l : List Char), 'x' ∉ l → removeAll0x l = l
  | [], _ => rfl
  | [c], _ => rfl
  | c1 :: c2 :: rest, h => by
    have h2 : c2 ≠ 'x' := fun hx => h (by simp [hx])
    simp only [removeAll0x]
    rw [if_neg (fun hc => h2 hc.2)]
    have := removeAll0x_of_not_mem_x (c2 :: rest)
      (fun hm => h (List.mem_cons_of_mem _ hm))
    rw [this]

theorem format_address_ok_of_core {h : List Char} (hlen : h.length = 40)
    (hhex : h.all isHexChar = true) :
    format_address h = .ok ('0' :: 'x' :: h) ∧
    format_address ('0' :: 'x' :: h) = .ok ('0' :: 'x' :: h) := by
  have hne : h ≠ [] := by intro e; rw [e] at hlen; simp at hlen
  have hlow : strLower h = h := strLower_of_all_hex hhex
  have hrem : removeAll0x h = h :=
    removeAll0x_of_not_mem_x h (not_mem_x_of_all_hex hhex)
  have hlow2 : strLower ('0' :: 'x' :: h) = '0' :: 'x' :: h := by
    show pyLower '0' :: pyLower 'x' :: strLower h = _
    rw [hlow]; rfl
  have hrem2 : removeAll0x ('0' :: 'x' :: h) = h := by
    cases h with
    | nil => simp at hlen
    | cons a rest =>
      show (if '0' = '0' ∧ 'x' = 'x' then removeAll0x (a :: rest)
            else '0' :: removeAll0x ('x' :: a :: rest)) = a :: rest
      rw [if_pos ⟨rfl, rfl⟩]
      exact hrem
  constructor
  · rw [format_address, if_neg hne]
    simp only [hlow, hrem, hlen, hhex]
    simp
  · rw [format_address, if_neg (by simp : ('0' :: 'x' :: h) ≠ [])]
    simp only [hlow2, hrem2, hlen, hhex]
    simp

theorem format_condition_id_ok_of_core {h : List Char} (hlen : h.length = 64)
    (hhex : h.all isHexChar = true) :
    format_condition_id h = .ok ('0' :: 'x' :: h) ∧
    format_condition_id ('0' :: 'x' :: h) = .ok ('0' :: 'x' :: h) := by
  have hne : h ≠ [] := by intro e; rw [e] at hlen; simp at hlen
  have hlow : strLower h = h := strLower_of_all_hex hhex
  have hrem : removeAll0x h = h :=
    removeAll0x_of_not_mem_x h (not_mem_x_of_all_hex hhex)
  have hlow2 : strLower ('0' :: 'x' :: h) = '0' :: 'x' :: h := by
    show pyLower '0' :: pyLower 'x' :: strLower h = _
    rw [hlow]; rfl
  have hrem2 : removeAll0x ('0' :: 'x' :: h) = h := by
    cases h with
    | nil => simp at hlen
    | cons a rest =>
      show (if '0' = '0' ∧ 'x' = 'x' then removeAll0x (a :: rest)
            else '0' :: removeAll0x ('x' :: a :: rest)) = a :: rest
      rw [if_pos ⟨rfl, rfl⟩]
      exact hrem
  constructor
  · rw [format_condition_id, if_neg hne]
    simp only [hlow, hrem, hlen, hhex]
    simp
  · rw [format_condition_id, if_neg (by simp : ('0' :: 'x' :: h) ≠ [])]
    simp only [hlow2, hrem2, hlen, hhex]
    simp

theorem format_address_ok_inv {s v : List Char} (h : format_address s = .ok v) :
    ∃ core, v = '0' :: 'x' :: core ∧ core.length = 40 ∧ core.all isHexChar = true := by
  simp only [format_address] at h
  split_ifs at h with h1 h2 h3
  refine ⟨removeAll0x (strLower s), (Except.ok.inj h).symm, not_not.mp h2, h3⟩

theorem format_condition_id_ok_inv {s v : List Char}
    (h : format_condition_id s = .ok v) :
    ∃ core, v = '0' :: 'x' :: core ∧ core.length = 64 ∧ core.all isHexChar = true := by
  simp only [format_condition_id] at h
  split_ifs at h with h1 h2 h3
  exact ⟨removeAll0x (strLower s), (Except.ok.inj h).symm, not_not.mp h2, h3⟩

/-- C1 (code bug evaluation): the source strips every occurrence of `0x`
with `replace`, not just a leading prefix, contradicting its own
docstring and the specification.  On the 42-character input
`aaaaaaaaaaaaaaaaaaaa0xaaaaaaaaaaaaaaaaaaaa` — no leading `0x`, and the
interior `x` is not a hex digit, so the claimed contract must reject it —
`format_address` deletes the interior `0x` and returns `0x` followed by
40 `a`s; likewise `format_condition_id` on the 66-character analogue.
`specAddressAccepts`/`specConditionIdAccepts` formalise the claimed
contract and reject both inputs. -/
theorem C1_interior_0x_divergence :
    format_address (chars "aaaaaaaaaaaaaaaaaaaa0xaaaaaaaaaaaaaaaaaaaa") =
      .ok (chars "0xaaaaaaaaaaaaaaaaaaaaaaaaaaaaaaaaaaaaaaaa") ∧
    specAddressAccepts (chars "aaaaaaaaaaaaaaaaaaaa0xaaaaaaaaaaaaaaaaaaaa") = false ∧
    format_condition_id
        (chars "aaaaaaaaaaaaaaaaaaaaaaaaaaaaaaaa0xaaaaaaaaaaaaaaaaaaaaaaaaaaaaaaaa") =
      .ok (chars "0xaaaaaaaaaaaaaaaaaaaaaaaaaaaaaaaaaaaaaaaaaaaaaaaaaaaaaaaaaaaaaaaa") ∧
    specConditionIdAccepts
        (chars "aaaaaaaaaaaaaaaaaaaaaaaaaaaaaaaa0xaaaaaaaaaaaaaaaaaaaaaaaaaaaaaaaa") = false :=
  ⟨rfl, rfl, rfl, rfl⟩

/-- C5: `format_address` accepts a 40-digit lowercase hex core with or
without the `0x` prefix and returns the same normalized form, and is
idempotent on any of its own outputs; likewise `format_condition_id`
with 64 digits. -/
theorem C5_idempotent :
    (∀ h : List Char, h.length = 40 → h.all isHexChar = true →
      format_address ('0' :: 'x' :: h) = .ok ('0' :: 'x' :: h) ∧
      format_address h = .ok ('0' :: 'x' :: h)) ∧
    (∀ s v : List Char, format_address s = .ok v → format_address v = .ok v) ∧
    (∀ h : List Char, h.length = 64 → h.all isHexChar = true →
      format_condition_id ('0' :: 'x' :: h) = .ok ('0' :: 'x' :: h) ∧
      format_condition_id h = .ok ('0' :: 'x' :: h)) ∧
    (∀ s v : List Char, format_condition_id s = .ok v → format_condition_id v = .ok v) := by
  refine ⟨?_, ?_, ?_, ?_⟩
  · intro h hlen hhex
    have := format_address_ok_of_core hlen hhex
    exact ⟨this.2, this.1⟩
  · intro s v hv
    obtain ⟨core, rfl, hlen, hhex⟩ := format_address_ok_inv hv
    exact (format_address_ok_of_core hlen hhex).2
  · intro h hlen hhex
    have := format_condition_id_ok_of_core hlen hhex
    exact ⟨this.2, this.1⟩
  · intro s v hv
    obtain ⟨core, rfl, hlen, hhex⟩ := format_condition_id_ok_inv hv
    exact (format_condition_id_ok_of_core hlen hhex).2

/-- C5 witness: both validators applied at concrete already-normalized
inputs, prefixed and bare. -/
theorem C5_idempotent_witness :
    (format_address
        ('0' :: 'x' :: chars "56687bf447db6ffa42ffe2204a05edaa20f55839") =
      .ok ('0' :: 'x' :: chars "56687bf447db6ffa42ffe2204a05edaa20f55839")) ∧
    (format_address EXAMPLE_ADDRESS = .ok EXAMPLE_ADDRESS) ∧
    (format_condition_id EXAMPLE_CONDITION_ID = .ok EXAMPLE_CONDITION_ID) :=
  ⟨(C5_idempotent.1 (chars "56687bf447db6ffa42ffe2204a05edaa20f55839")
      (by decide) (by decide)).1,
   C5_idempotent.2.1 EXAMPLE_ADDRESS EXAMPLE_ADDRESS rfl,
   C5_idempotent.2.2.2 EXAMPLE_CONDITION_ID EXAMPLE_CONDITION_ID rfl⟩

/-- C9: whenever `format_address` returns, the returned value is `0x`
followed by exactly 40 characters from the lowercase hex alphabet
`0123456789abcdef`; whenever `format_condition_id` returns, the value is
`0x` followed by exactly 64 such characters. -/
theorem C9_output_invariant :
    (∀ s v : List Char, format_address s = .ok v →
      ∃ core, v = '0' :: 'x' :: core ∧ core.length = 40 ∧
        core.all isHexChar = true) ∧
    (∀ s v : List Char, format_condition_id s = .ok v →
      ∃ core, v = '0' :: 'x' :: core ∧ core.length = 64 ∧
        core.all isHexChar = true) :=
  ⟨fun _ _ h => format_address_ok_inv h,
   fun _ _ h => format_condition_id_ok_inv h⟩

/-- C9 witness: the invariant read off at the example address and example
condition id of `utils.py`. -/
theorem C9_output_invariant_witness :
    (∃ core, EXAMPLE_ADDRESS = '0' :: 'x' :: core ∧ core.length = 40 ∧
      core.all isHexChar = true) ∧
    (∃ core, EXAMPLE_CONDITION_ID = '0' :: 'x' :: core ∧ core.length = 64 ∧
      core.all isHexChar = true) :=
  ⟨C9_output_invariant.1 EXAMPLE_ADDRESS EXAMPLE_ADDRESS rfl,
   C9_output_invariant.2 EXAMPLE_CONDITION_ID EXAMPLE_CONDITION_ID rfl⟩

/-- C8: the four formatters of `utils.py` are deterministic — equal
inputs give equal results (return value or raised error alike); in this
embedding they are total functions of their argument, which is exactly
the no-I/O, no-state reading of the source (the Python bodies only
inspect their argument and build a fresh value). -/
theorem C8_deterministic :
    (∀ s t : List Char, s = t →
      format_address s = format_address t ∧
      format_condition_id s = format_condition_id t) ∧
    (∀ x y : ℚ, x = y →
      format_pnl x = format_pnl y ∧
      format_percentage x = format_percentage y) :=
  ⟨fun s t h => by rw [h]; exact ⟨rfl, rfl⟩,
   fun x y h => by rw [h]; exact ⟨rfl, rfl⟩⟩

/-- C8 witness: determinism instantiated at the example address and at 0. -/
theorem C8_deterministic_witness :
    (format_address EXAMPLE_ADDRESS = format_address EXAMPLE_ADDRESS ∧
     format_condition_id EXAMPLE_ADDRESS = format_condition_id EXAMPLE_ADDRESS) ∧
    (format_pnl 0 = format_pnl 0 ∧ format_percentage 0 = format_percentage 0) :=
  ⟨C8_deterministic.1 EXAMPLE_ADDRESS EXAMPLE_ADDRESS rfl,
   C8_deterministic.2 0 0 rfl⟩

theorem roundHalfEvenCents_zero : roundHalfEvenCents 0 = 0 := by
  norm_num [roundHalfEvenCents]

/-- C6: `format_pnl` branches three ways on the sign of its argument:
at 0 it returns `$0.00` with no sign character and no chart marker; for
positive arguments the result starts with `+` and carries the chart-up
marker; for negative arguments the result is `-$` followed by the
rendering of the absolute value, carrying the chart-down marker. -/
theorem C6_sign_branches :
    (format_pnl 0 = chars "$0.00" ∧
     ('+' ∉ format_pnl 0 ∧ '-' ∉ format_pnl 0 ∧
      '📈' ∉ format_pnl 0 ∧ '📉' ∉ format_pnl 0)) ∧
    (∀ x : ℚ, 0 < x →
      (format_pnl x).head? = some '+' ∧ '📈' ∈ format_pnl x) ∧
    (∀ x : ℚ, x < 0 →
      format_pnl x = '-' :: '$' :: fmtCommaFixed2 |x| ++ [' ', '📉'] ∧
      '📉' ∈ format_pnl x) := by
  have hz : format_pnl 0 = chars "$0.00" := by
    have h0 : roundHalfEvenCents 0 = 0 := roundHalfEvenCents_zero
    simp only [format_pnl, fmtCommaFixed2, h0, lt_irrefl, if_false]
    norm_num
    rfl
  refine ⟨⟨hz, ?_⟩, ?_, ?_⟩
  · rw [hz]; refine ⟨by decide, by decide, by decide, by decide⟩
  · intro x hx
    rw [format_pnl, if_pos hx]
    exact ⟨rfl, by simp⟩
  · intro x hx
    rw [format_pnl, if_neg (not_lt.mpr hx.le), if_pos hx]
    exact ⟨rfl, by simp⟩

/-- C6 witness: the positive and negative branches evaluated at 5
and -3. -/
theorem C6_sign_branches_witness :
    ((0 : ℚ) < 5 ∧ (format_pnl 5).head? = some '+' ∧ '📈' ∈ format_pnl 5) ∧
    ((-3 : ℚ) < 0 ∧
      format_pnl (-3) = '-' :: '$' :: fmtCommaFixed2 |(-3 : ℚ)| ++ [' ', '📉'] ∧
      '📉' ∈ format_pnl (-3)) := by
  have h5 : (0 : ℚ) < 5 := by norm_num
  have h3 : (-3 : ℚ) < 0 := by norm_num
  exact ⟨⟨h5, C6_sign_branches.2.1 5 h5⟩, ⟨h3, C6_sign_branches.2.2 (-3) h3⟩⟩

/-- C3: the `sum(... .get(field, 0) ...)` aggregations: the cashPnl sum
of `get_user_positions.main` over the empty position list is 0; the
leaderboard total of `get_leaderboard.main` over three entries with pnl
10, -5 and 0 is 5; and an entry with no `pnl` field contributes 0. -/
theorem C3_sum_aggregation :
    GetUserPositions.total_pnl [] = 0 ∧
    GetLeaderboard.total_pnl
      [⟨none, none, some 10, none⟩, ⟨none, none, some (-5), none⟩,
       ⟨none, none, some 0, none⟩] = 5 ∧
    GetLeaderboard.total_pnl [⟨none, none, none, none⟩] = 0 := by
  refine ⟨rfl, ?_, ?_⟩
  · norm_num [GetLeaderboard.total_pnl]
  · norm_num [GetLeaderboard.total_pnl]

theorem length_filter_sign_partition (f : Position → ℚ) (l : List Position) :
    (l.filter (fun p => decide (f p > 0))).length
      + (l.filter (fun p => decide (f p < 0))).length
      + (l.filter (fun p => decide (f p = 0))).length = l.length := by
  induction l with
  | nil => rfl
  | cons p ps ih =>
    rcases lt_trichotomy (f p) 0 with hneg | hzero | hpos
    · have h1 : decide (f p > 0) = false := decide_eq_false (not_lt.mpr hneg.le)
      have h2 : decide (f p < 0) = true := decide_eq_true hneg
      have h3 : decide (f p = 0) = false := decide_eq_false hneg.ne
      simp only [List.filter_cons, h1, h2, h3, if_true, if_false,
        Bool.false_eq_true, List.length_cons]
      omega
    · have h1 : decide (f p > 0) = false := decide_eq_false (by rw [hzero]; exact lt_irrefl 0)
      have h2 : decide (f p < 0) = false := decide_eq_false (by rw [hzero]; exact lt_irrefl 0)
      have h3 : decide (f p = 0) = true := decide_eq_true hzero
      simp only [List.filter_cons, h1, h2, h3, if_true, if_false,
        Bool.false_eq_true, List.length_cons]
      omega
    · have h1 : decide (f p > 0) = true := decide_eq_true hpos
      have h2 : decide (f p < 0) = false := decide_eq_false (not_lt.mpr hpos.le)
      have h3 : decide (f p = 0) = false := decide_eq_false hpos.ne.symm
      simp only [List.filter_cons, h1, h2, h3, if_true, if_false,
        Bool.false_eq_true, List.length_cons]
      omega

/-- C4: in `calculate_profitability` the strict-sign classification
partitions each fetched list exactly — winners plus losers plus
exactly-zero positions equal the list length for the active list (on
`cashPnl`) and the closed list (on `realizedPnl`), and the combined
counts satisfy `total_winning + total_losing + zeros = total_positions`;
the same partition holds for `analyze_closed_positions` of
`trade_analysis.py`. -/
theorem C4_win_loss_partition (active closed positions : List Position) :
    ((TraderProfitability.calculate_profitability active closed).winning_active
        + (TraderProfitability.calculate_profitability active closed).losing_active
        + (active.filter (fun p => decide (p.cashPnl.getD 0 = 0))).length
      = active.length) ∧
    ((TraderProfitability.calculate_profitability active closed).winning_closed
        + (TraderProfitability.calculate_profitability active closed).losing_closed
        + (closed.filter (fun p => decide (p.realizedPnl.getD 0 = 0))).length
      = closed.length) ∧
    ((TraderProfitability.calculate_profitability active closed).total_winning
        + (TraderProfitability.calculate_profitability active closed).total_losing
        + ((active.filter (fun p => decide (p.cashPnl.getD 0 = 0))).length
            + (closed.filter (fun p => decide (p.realizedPnl.getD 0 = 0))).length)
      = (TraderProfitability.calculate_profitability active closed).total_positions) ∧
    ((TradeAnalysis.analyze_closed_positions positions).win_count
        + (TradeAnalysis.analyze_closed_positions positions).loss_count
        + (positions.filter (fun p => decide (p.realizedPnl.getD 0 = 0))).length
      = (TradeAnalysis.analyze_closed_positions positions).total_closed) := by
  have hact := length_filter_sign_partition (fun p => p.cashPnl.getD 0) active
  have hclo := length_filter_sign_partition (fun p => p.realizedPnl.getD 0) closed
  have hpos := length_filter_sign_partition (fun p => p.realizedPnl.getD 0) positions
  simp only [TraderProfitability.calculate_profitability,
    TradeAnalysis.analyze_closed_positions] at *
  refine ⟨?_, ?_, ?_, ?_⟩ <;> omega

/-- C7: `trader_profitability.main` exits 1 when `format_address`
raises, and otherwise the exit code reports the profit/loss outcome of
the computed stats: 0 exactly when `total_pnl > 0` (which is what
`is_profitable` records), 1 otherwise — break-even included. -/
theorem C7_exit_codes :
    (∀ (addressArg : List Char) (e : PyValueError)
        (activeO closedO : FetchOutcome (List Position)),
      format_address addressArg = .error e →
      TraderProfitability.main_exit_code addressArg activeO closedO = 1) ∧
    (∀ (addressArg v : List Char) (activeO closedO : FetchOutcome (List Position)),
      format_address addressArg = .ok v →
      ((TraderProfitability.main_exit_code addressArg activeO closedO = 0 ↔
        0 < (TraderProfitability.calculate_profitability
              (TraderProfitability.get_active_positions_run activeO)
              (TraderProfitability.get_closed_positions_run closedO)).total_pnl) ∧
       (TraderProfitability.main_exit_code addressArg activeO closedO = 1 ↔
        ¬ 0 < (TraderProfitability.calculate_profitability
              (TraderProfitability.get_active_positions_run activeO)
              (TraderProfitability.get_closed_positions_run closedO)).total_pnl))) := by
  constructor
  · intro addressArg e activeO closedO h
    simp [TraderProfitability.main_exit_code, h]
  · intro addressArg v activeO closedO h
    have hprof : (TraderProfitability.calculate_profitability
        (TraderProfitability.get_active_positions_run activeO)
        (TraderProfitability.get_closed_positions_run closedO)).is_profitable =
        decide (0 < (TraderProfitability.calculate_profitability
          (TraderProfitability.get_active_positions_run activeO)
          (TraderProfitability.get_closed_positions_run closedO)).total_pnl) := by
      simp [TraderProfitability.calculate_profitability]
    rw [TraderProfitability.main_exit_code, h]
    by_cases hp : 0 < (TraderProfitability.calculate_profitability
        (TraderProfitability.get_active_positions_run activeO)
        (TraderProfitability.get_closed_positions_run closedO)).total_pnl
    · simp [hprof, hp]
    · simp [hprof, hp]

/-- C7 witness: a malformed address exits 1; a valid address whose two
fetches both fail (hence empty lists and `total_pnl = 0`, not profitable)
also exits 1. -/
theorem C7_exit_codes_witness :
    TraderProfitability.main_exit_code (chars "xyz")
      FetchOutcome.netError FetchOutcome.netError = 1 ∧
    TraderProfitability.main_exit_code EXAMPLE_ADDRESS
      FetchOutcome.netError FetchOutcome.netError = 1 := by
  constructor
  · exact C7_exit_codes.1 (chars "xyz") (.invalidAddressLength 3)
      FetchOutcome.netError FetchOutcome.netError rfl
  · refine (C7_exit_codes.2 EXAMPLE_ADDRESS EXAMPLE_ADDRESS
      FetchOutcome.netError FetchOutcome.netError rfl).2.mpr ?_
    simp [TraderProfitability.calculate_profitability,
      TraderProfitability.get_active_positions_run,
      TraderProfitability.get_closed_positions_run, fetchWithDefault]

/-- C10: `get_leaderboard` always sends `min(limit, 50)` as the `limit`
query parameter, hence at most 50; `get_market_holders`, whenever it
builds its request (i.e. the condition id validates), sends
`min(limit, 20)`, hence at most 20. -/
theorem C10_limit_caps :
    (∀ (category time_period order_by : List Char) (limit : Int),
      (GetLeaderboard.get_leaderboard_request category time_period order_by
          limit).param (chars "limit") = some (.int (min limit 50)) ∧
      min limit 50 ≤ 50) ∧
    (∀ (condition_id : List Char) (limit : Int) (r : HttpRequest),
      GetMarketHolders.get_market_holders_request condition_id limit = .ok r →
      r.param (chars "limit") = some (.int (min limit 20)) ∧
      min limit 20 ≤ 20) := by
  constructor
  · intro category time_period order_by limit
    exact ⟨rfl, min_le_right _ _⟩
  · intro condition_id limit r h
    cases hfc : format_condition_id condition_id with
    | error e =>
      rw [GetMarketHolders.get_market_holders_request, hfc] at h
      simp [Except.map] at h
    | ok u =>
      rw [GetMarketHolders.get_market_holders_request, hfc] at h
      simp only [Except.map] at h
      rw [← Except.ok.inj h]
      exact ⟨rfl, min_le_right _ _⟩

/-- C10 witness: the holders request built from the example condition id
with limit 100 carries the capped parameter. -/
theorem C10_limit_caps_witness :
    (HttpRequest.param
      ⟨chars "https://data-api.polymarket.com/holders",
       [(chars "market", .str EXAMPLE_CONDITION_ID),
        (chars "limit", .int (min 100 20))], some 15⟩
      (chars "limit") = some (.int (min (100 : Int) 20))) ∧
    min (100 : Int) 20 ≤ 20 :=
  C10_limit_caps.2 EXAMPLE_CONDITION_ID 100
    ⟨chars "https://data-api.polymarket.com/holders",
     [(chars "market", .str EXAMPLE_CONDITION_ID),
      (chars "limit", .int (min 100 20))], some 15⟩ rfl

theorem timeout_of_except_ok {e : Except PyValueError (List Char)}
    {f : List Char → HttpRequest} {r : HttpRequest} (t : Option Nat)
    (hf : ∀ u, (f u).timeout = t) (h : e.map f = .ok r) : r.timeout = t := by
  cases e with
  | error err => simp [Except.map] at h
  | ok u =>
    simp only [Except.map] at h
    rw [← Except.ok.inj h]
    exact hf u

/-- C2 counterexample: `redeemable_parameter_demo.get_positions_comparison`
issues its first GET with no `timeout` argument, and a connection error
or timeout there is caught nowhere — it propagates out of the function
instead of producing an empty/default result. -/
theorem C2_no_timeout_counterexample :
    (RedeemableParameterDemo.query1_request EXAMPLE_ADDRESS).timeout = none ∧
    RedeemableParameterDemo.query_run FetchOutcome.netError =
      .error PyRequestError.requestException :=
  ⟨rfl, rfl⟩

/-- C2 amended: every GET issued by the scripts other than
`redeemable_parameter_demo.py` carries a fixed per-request timeout (10,
15 or 20 seconds depending on the call site), and each of those fetchers
catches the network/HTTP failure at the call site and returns its
empty/default result (`[]`, `None`, or `0`); the three GETs of
`redeemable_parameter_demo.get_positions_comparison` instead carry no
timeout, handle a non-2xx response by printing and continuing with no
data, and let connection errors and timeouts propagate uncaught. -/
theorem C2_timeouts_and_fallbacks :
    (∀ a (l : Int), (TraderProfitability.get_active_positions_request a l).timeout = some 15) ∧
    (∀ a (l : Int), (TraderProfitability.get_closed_positions_request a l).timeout = some 15) ∧
    (∀ u a tp r, TraderProfitability.get_leaderboard_pnl_request u a tp = .ok (some r) →
      r.timeout = some 15) ∧
    (∀ c tp ob (l : Int), (GetLeaderboard.get_leaderboard_request c tp ob l).timeout = some 15) ∧
    (∀ cid (l : Int) r, GetMarketHolders.get_market_holders_request cid l = .ok r →
      r.timeout = some 15) ∧
    (∀ a (l : Int) sb sd rd r, GetUserPositions.get_user_positions_request a l sb sd rd = .ok r →
      r.timeout = some 15) ∧
    (∀ a (l : Int) sd mk r, GetUserTrades.get_user_trades_request a l sd mk = .ok r →
      r.timeout = some 15) ∧
    (∀ a (l o : Int) ts sd sb sdir r,
      GetUserActivity.get_user_activity_request a l o ts sd sb sdir = .ok r →
      r.timeout = some 15) ∧
    (∀ a r, GetPortfolioValue.get_portfolio_value_request a = .ok r → r.timeout = some 10) ∧
    (∀ a r, GetPortfolioValue.get_user_positions_count_request a = .ok r → r.timeout = some 10) ∧
    (∀ a r, GetPortfolioValue.get_markets_traded_count_request a = .ok r → r.timeout = some 10) ∧
    (∀ a, (AnalyzeTrader.get_portfolio_value_request a).timeout = some 10) ∧
    (∀ a (l : Int), (AnalyzeTrader.get_positions_request a l).timeout = some 15) ∧
    (∀ a (l : Int), (AnalyzeTrader.get_recent_trades_request a l).timeout = some 15) ∧
    (∀ a, (AnalyzeTrader.get_markets_traded_request a).timeout = some 10) ∧
    (∀ a (l : Int), (AnalyzeTrader.get_closed_positions_request a l).timeout = some 15) ∧
    (∀ a (l : Int) r, TradeAnalysis.analyze_trades_request a l = .ok r → r.timeout = some 20) ∧
    (∀ a (l : Int) r, TradeAnalysis.analyze_closed_positions_request a l = .ok r →
      r.timeout = some 15) ∧
    (∀ a (l : Int) r, TradeAnalysis.analyze_open_positions_request a l = .ok r →
      r.timeout = some 15) ∧
    (∀ s, TraderProfitability.get_active_positions_run (.httpError s) = [] ∧
      TraderProfitability.get_active_positions_run .netError = []) ∧
    (∀ s, TraderProfitability.get_closed_positions_run (.httpError s) = [] ∧
      TraderProfitability.get_closed_positions_run .netError = []) ∧
    (∀ s, TraderProfitability.get_leaderboard_pnl_run (.httpError s) = none ∧
      TraderProfitability.get_leaderboard_pnl_run .netError = none) ∧
    (∀ s, GetLeaderboard.get_leaderboard_run (.httpError s) = none ∧
      GetLeaderboard.get_leaderboard_run .netError = none) ∧
    (∀ s, GetMarketHolders.get_market_holders_run (.httpError s) = none ∧
      GetMarketHolders.get_market_holders_run .netError = none) ∧
    (∀ s, GetUserPositions.get_user_positions_run (.httpError s) = none ∧
      GetUserPositions.get_user_positions_run .netError = none) ∧
    (∀ s, GetUserTrades.get_user_trades_run (.httpError s) = none ∧
      GetUserTrades.get_user_trades_run .netError = none) ∧
    (∀ s, GetUserActivity.get_user_activity_run (.httpError s) = none ∧
      GetUserActivity.get_user_activity_run .netError = none) ∧
    (∀ s, GetPortfolioValue.get_portfolio_value_run (.httpError s) = none ∧
      GetPortfolioValue.get_portfolio_value_run .netError = none) ∧
    (∀ s, GetPortfolioValue.get_user_positions_count_run (.httpError s) = 0 ∧
      GetPortfolioValue.get_user_positions_count_run .netError = 0) ∧
    (∀ s, GetPortfolioValue.get_markets_traded_count_run (.httpError s) = 0 ∧
      GetPortfolioValue.get_markets_traded_count_run .netError = 0) ∧
    (∀ s, AnalyzeTrader.get_portfolio_value_run (.httpError s) = 0 ∧
      AnalyzeTrader.get_portfolio_value_run .netError = 0) ∧
    (∀ s, AnalyzeTrader.get_positions_run (.httpError s) = [] ∧
      AnalyzeTrader.get_positions_run .netError = []) ∧
    (∀ s, AnalyzeTrader.get_recent_trades_run (.httpError s) = [] ∧
      AnalyzeTrader.get_recent_trades_run .netError = []) ∧
    (∀ s, AnalyzeTrader.get_markets_traded_run (.httpError s) = 0 ∧
      AnalyzeTrader.get_markets_traded_run .netError = 0) ∧
    (∀ s, AnalyzeTrader.get_closed_positions_run (.httpError s) = [] ∧
      AnalyzeTrader.get_closed_positions_run .netError = []) ∧
    (∀ s, TradeAnalysis.analyze_trades_fetch (.httpError s) = none ∧
      TradeAnalysis.analyze_trades_fetch .netError = none) ∧
    (∀ s, TradeAnalysis.analyze_closed_positions_fetch (.httpError s) = none ∧
      TradeAnalysis.analyze_closed_positions_fetch .netError = none) ∧
    (∀ s, TradeAnalysis.analyze_open_positions_fetch (.httpError s) = none ∧
      TradeAnalysis.analyze_open_positions_fetch .netError = none) ∧
    (∀ a, (RedeemableParameterDemo.query1_request a).timeout = none ∧
      (RedeemableParameterDemo.query2_request a).timeout = none ∧
      (RedeemableParameterDemo.query3_request a).timeout = none) ∧
    (RedeemableParameterDemo.query_run .netError =
      .error PyRequestError.requestException) ∧
    (∀ s, RedeemableParameterDemo.query_run (.httpError s) = .ok []) := by
  refine ⟨fun a l => rfl, fun a l => rfl, ?_, fun c tp ob l => rfl, ?_, ?_, ?_, ?_,
    ?_, ?_, ?_, fun a => rfl, fun a l => rfl, fun a l => rfl, fun a => rfl,
    fun a l => rfl, ?_, ?_, ?_,
    fun s => ⟨rfl, rfl⟩, fun s => ⟨rfl, rfl⟩, fun s => ⟨rfl, rfl⟩,
    fun s => ⟨rfl, rfl⟩, fun s => ⟨rfl, rfl⟩, fun s => ⟨rfl, rfl⟩,
    fun s => ⟨rfl, rfl⟩, fun s => ⟨rfl, rfl⟩, fun s => ⟨rfl, rfl⟩,
    fun s => ⟨rfl, rfl⟩, fun s => ⟨rfl, rfl⟩, fun s => ⟨rfl, rfl⟩,
    fun s => ⟨rfl, rfl⟩, fun s => ⟨rfl, rfl⟩, fun s => ⟨rfl, rfl⟩,
    fun s => ⟨rfl, rfl⟩, fun s => ⟨rfl, rfl⟩, fun s => ⟨rfl, rfl⟩,
    fun s => ⟨rfl, rfl⟩, fun a => ⟨rfl, rfl, rfl⟩, rfl, fun s => rfl⟩
  · intro u a tp r h
    rcases u with _ | ⟨_ | ⟨c, cs⟩⟩
    · rcases a with _ | ⟨_ | ⟨d, ds⟩⟩
      · simp only [TraderProfitability.get_leaderboard_pnl_request] at h
        exact absurd (Except.ok.inj h) (by simp)
      · simp only [TraderProfitability.get_leaderboard_pnl_request] at h
        exact absurd (Except.ok.inj h) (by simp)
      · simp only [TraderProfitability.get_leaderboard_pnl_request] at h
        cases hfa : format_address (d :: ds) with
        | error e => rw [hfa] at h; simp [Except.map] at h
        | ok w =>
          rw [hfa] at h
          simp only [Except.map] at h
          have h2 := Except.ok.inj h
          simp only [Option.some.injEq] at h2
          rw [← h2]
    · rcases a with _ | ⟨_ | ⟨d, ds⟩⟩
      · simp only [TraderProfitability.get_leaderboard_pnl_request] at h
        exact absurd (Except.ok.inj h) (by simp)
      · simp only [TraderProfitability.get_leaderboard_pnl_request] at h
        exact absurd (Except.ok.inj h) (by simp)
      · simp only [TraderProfitability.get_leaderboard_pnl_request] at h
        cases hfa : format_address (d :: ds) with
        | error e => rw [hfa] at h; simp [Except.map] at h
        | ok w =>
          rw [hfa] at h
          simp only [Except.map] at h
          have h2 := Except.ok.inj h
          simp only [Option.some.injEq] at h2
          rw [← h2]
    · simp only [TraderProfitability.get_leaderboard_pnl_request] at h
      have h2 := Except.ok.inj h
      simp only [Option.some.injEq] at h2
      rw [← h2]
  · intro cid l r h
    exact timeout_of_except_ok (some 15) (fun u => rfl) h
  · intro a l sb sd rd r h
    exact timeout_of_except_ok (some 15) (fun u => rfl) h
  · intro a l sd mk r h
    exact timeout_of_except_ok (some 15) (fun u => rfl) h
  · intro a l o ts sd sb sdir r h
    exact timeout_of_except_ok (some 15) (fun u => rfl) h
  · intro a r h
    exact timeout_of_except_ok (some 10) (fun u => rfl) h
  · intro a r h
    exact timeout_of_except_ok (some 10) (fun u => rfl) h
  · intro a r h
    exact timeout_of_except_ok (some 10) (fun u => rfl) h
  · intro a l r h
    exact timeout_of_except_ok (some 20) (fun u => rfl) h
  · intro a l r h
    exact timeout_of_except_ok (some 15) (fun u => rfl) h
  · intro a l r h
    exact timeout_of_except_ok (some 15) (fun u => rfl) h

/-- C2 witness: the timeout read off the user-positions request built
from the example address, and the active-positions fetcher falling back
to the empty list on a connection error. -/
theorem C2_timeouts_and_fallbacks_witness :
    (HttpRequest.timeout
      ⟨chars "https://data-api.polymarket.com/positions",
       [(chars "user", .str EXAMPLE_ADDRESS), (chars "limit", .int 20),
        (chars "sortBy", .str (chars "CURRENT")),
        (chars "sortDirection", .str (chars "DESC"))], some 15⟩ = some 15) ∧
    TraderProfitability.get_active_positions_run FetchOutcome.netError = [] :=
  ⟨C2_timeouts_and_fallbacks.2.2.2.2.2.1 EXAMPLE_ADDRESS 20
      (chars "CURRENT") (chars "DESC") none
      ⟨chars "https://data-api.polymarket.com/positions",
       [(chars "user", .str EXAMPLE_ADDRESS), (chars "limit", .int 20),
        (chars "sortBy", .str (chars "CURRENT")),
        (chars "sortDirection", .str (chars "DESC"))], some 15⟩ rfl,
   (C2_timeouts_and_fallbacks.2.2.2.2.2.2.2.2.2.2.2.2.2.2.2.2.2.2.2.1 0).2⟩

end PolyUserSkills